import Mathlib

/-!
Verification of the chest X-ray analysis backend (`backend/main.py`).

The development shallowly embeds the backend pipeline: checkpoint key
normalization and binding (`load_model`), deterministic image preprocessing
(`preprocess_image`), multi-label inference (`run_inference`), the guarded
LLM interpretation step (`interpret_with_llm`, `chat_without_image`) and the
request orchestration of the `/api/chat` endpoint (`chat`).

Modelling conventions:
* Python byte strings are `List Nat`; Python strings used as dict keys are
  `List Char` so that `startswith` is `List.isPrefixOf` and `k[n:]` is
  `List.drop`.
* Python dicts are association lists preserving insertion order.
* Tensors carry an explicit shape (`numel` is the product of the dims, as in
  torch) and rational entries; floating point arithmetic is abstracted by ℚ
  and the exponential inside `torch.sigmoid` is an explicit positive-valued
  function parameter.
* Exceptions are `Except`; the FastAPI `HTTPException(status_code, detail)`
  is a structure holding the literal status and detail from the source.
* Effectful collaborators that the code only calls (PIL decoding, the PIL
  resampling filter, the luminance formula of `convert('L')`, device
  placement, `torch.load`, `load_state_dict`, the Groq client) are function
  parameters, so every theorem quantifies over their behaviour.
* The module-global `model` variable is explicit state (`GlobalState`)
  threaded through `load_model` and read by `run_inference`.
-/

namespace ChestXray

/-- A key of a loaded weight mapping: Python dict keys are either strings
(lists of characters) or some non-string value (`other`). -/
inductive SDKey where
| str : List Char → SDKey
| other : Nat → SDKey
deriving DecidableEq

/-- A weight mapping (`state_dict`): ordered key-value pairs. -/
abbrev StateDict (V : Type) := List (SDKey × V)

/-- Whether a dict key is a string (`isinstance(key, str)`). -/
def keyIsStr : SDKey → Bool
| SDKey.str _ => true
| SDKey.other _ => false

/-- Whether a dict key is a string starting with `p` (`key.startswith(prefix)`). -/
def keyStarts (p : List Char) : SDKey → Bool
| SDKey.str s => p.isPrefixOf s
| SDKey.other _ => false

/-- Drop the first `n` characters of a string key (`k[len(prefix):]`). -/
def stripKey (n : Nat) : SDKey → SDKey
| SDKey.str s => SDKey.str (s.drop n)
| SDKey.other m => SDKey.other m

/-- Prepend `p` to a string key (used to state normalization idempotence). -/
def pfxKey (p : List Char) : SDKey → SDKey
| SDKey.str s => SDKey.str (p ++ s)
| SDKey.other m => SDKey.other m

/-- Uniformly prepend `p` to every key of a weight mapping. -/
def addPfx {V : Type} (p : List Char) (sd : StateDict V) : StateDict V :=
  sd.map (fun kv => (pfxKey p kv.1, kv.2))

/-- The recognized wrapper tokens, in the priority order of the source
(`state_dict_prefixes = ("module.", "model.")`). -/
def state_dict_prefixes : List (List Char) := ["module.".data, "model.".data]

/-- Key normalization of `load_model` (`backend/main.py` lines 170-187):
if the dict is nonempty, every key is a string, and all keys share one of the
recognized tokens (first match in priority order wins), strip that token from
every key; otherwise the mapping is left exactly as found.  The counting loop
of the source (`counts[prefix] == total_keys` with an early break on a
non-string key) is modelled by the equivalent all-keys tests. -/
def normalize_state_dict {V : Type} (sd : StateDict V) : StateDict V :=
  if sd.isEmpty then sd
  else if sd.any (fun kv => !(keyIsStr kv.1)) then sd
  else
    match state_dict_prefixes.find? (fun p => sd.all (fun kv => keyStarts p kv.1)) with
    | some p => sd.map (fun kv => (stripKey p.length kv.1, kv.2))
    | none => sd

/-- A torch tensor: an explicit shape and (flattened) rational entries. -/
structure Tensor where
  shape : List Nat
  data : List ℚ
deriving DecidableEq

/-- `Tensor.numel()`: the product of the dimensions. -/
def Tensor.numel (t : Tensor) : Nat := t.shape.prod

/-- A PIL image: a declared mode, a size, and per-pixel channel values
(`px x y` lists the channel bytes of the pixel at column `x`, row `y`). -/
structure PILImage where
  mode : String
  width : Nat
  height : Nat
  px : Nat → Nat → List Nat

/-- `image.convert('L')`: collapse each pixel to one luminance channel.
The luminance formula applied by PIL is the parameter `lum`. -/
def convertL (lum : List Nat → Nat) (img : PILImage) : PILImage :=
  { mode := "L", width := img.width, height := img.height,
    px := fun x y => [lum (img.px x y)] }

/-- `transforms.Resize((224, 224))` (here for a general target size): the
result has exactly the requested size, with pixel content produced by the
deterministic resampling filter `R` from the source image. -/
def resizeImg (R : PILImage → Nat → Nat → Nat → Nat → List Nat)
    (img : PILImage) (w h : Nat) : PILImage :=
  { mode := img.mode, width := w, height := h, px := fun x y => R img w h x y }

/-- `transforms.ToTensor()` on a single-channel image: a `(1, H, W)` float
tensor with entries scaled from bytes to `[0, 1]` (division by 255). -/
def toTensor (img : PILImage) : Tensor :=
  { shape := [1, img.height, img.width],
    data := (List.range img.height).flatMap (fun y =>
      (List.range img.width).map (fun x => ((img.px x y).headD 0 : ℚ) / 255)) }

/-- `transforms.Normalize(mean=[0.5], std=[0.5])`: the fixed affine map. -/
def normalizeT (t : Tensor) : Tensor :=
  { shape := t.shape, data := t.data.map (fun v => (v - 1/2) / (1/2)) }

/-- `tensor.unsqueeze(0)`: insert a leading batch dimension of size 1. -/
def unsqueeze (t : Tensor) : Tensor :=
  { shape := 1 :: t.shape, data := t.data }

/-- The transform pipeline of `preprocess_image` after a successful decode:
grayscale conversion, resize to 224×224, tensor conversion, fixed
normalization, batch dimension. -/
def apply_transforms (lum : List Nat → Nat)
    (R : PILImage → Nat → Nat → Nat → Nat → List Nat) (img : PILImage) : Tensor :=
  unsqueeze (normalizeT (toTensor (resizeImg R (convertL lum img) 224 224)))

/-- The typed failures of `preprocess_image` (the three `ValueError` raise
sites of the source). -/
inductive PreprocessError where
| emptyImage
| invalidImageFormat
| preprocessingFailed
deriving DecidableEq

/-- The literal `ValueError` message of each preprocessing failure. -/
def PreprocessError.message : PreprocessError → String
| PreprocessError.emptyImage => "Image data is empty"
| PreprocessError.invalidImageFormat => "Invalid image format: unable to decode image"
| PreprocessError.preprocessingFailed => "Failed to preprocess image"

/-- `preprocess_image` (`backend/main.py` lines 208-257): reject empty bytes;
decode via `Image.open` (the decoder `dec` abstracts PIL, `none` meaning the
decode raised); apply the deterministic transforms; place the result on the
inference device (`toDev`, `none` meaning `.to(device)` raised, which the
source surfaces as the generic preprocessing `ValueError`).  No fallback
value is ever substituted. -/
def preprocess_image (dec : List Nat → Option PILImage) (lum : List Nat → Nat)
    (R : PILImage → Nat → Nat → Nat → Nat → List Nat)
    (toDev : Tensor → Option Tensor)
    (image_bytes : List Nat) : Except PreprocessError Tensor :=
  if image_bytes.isEmpty then Except.error PreprocessError.emptyImage
  else
    match dec image_bytes with
    | none => Except.error PreprocessError.invalidImageFormat
    | some image =>
      match toDev (apply_transforms lum R image) with
      | some t => Except.ok t
      | none => Except.error PreprocessError.preprocessingFailed

/-- `ReLU` on one entry. -/
def reluQ (x : ℚ) : ℚ := max x 0

/-- `nn.ReLU` on a flat activation vector. -/
def reluList (v : List ℚ) : List ℚ := v.map reluQ

/-- Dot product of weight row and activation vector. -/
def dotQ : List ℚ → List ℚ → ℚ
| a :: as, b :: bs => a * b + dotQ as bs
| _, _ => 0

/-- `nn.Linear`: each output is a weight row dotted with the input plus the
bias entry. -/
def linearLayer (W : List (List ℚ)) (b : List ℚ) (x : List ℚ) : List ℚ :=
  (W.zip b).map (fun rb => dotQ rb.1 x + rb.2)

/-- `nn.Dropout(0.5)`: in training mode each entry is kept (and rescaled by
`1/(1-p) = 2`) or zeroed according to the random keep mask; in eval mode the
layer is the identity. -/
def dropoutLayer (training : Bool) (keep : Nat → Bool) (v : List ℚ) : List ℚ :=
  if training then v.enum.map (fun ix => if keep ix.1 then 2 * ix.2 else 0) else v

/-- The `CheXpertCNN` module: the convolutional feature stack (four conv +
batch-norm + ReLU + max-pool blocks followed by `Flatten`) is deterministic
in eval and train mode alike and is abstracted by `features` (`none` models a
raised shape error); the classifier head is `Linear(256*14*14, 512)`, `ReLU`,
`Dropout(0.5)`, `Linear(512, 14)`.  `nn.Linear(512, num_classes)` with
`num_classes = 14` structurally has exactly 14 output rows, and
`load_state_dict` can never change a parameter's shape, so the 14-row shape
of the head is an invariant of the type. -/
structure CheXpertCNN where
  training : Bool
  features : Tensor → Option (List ℚ)
  fc1W : List (List ℚ)
  fc1b : List ℚ
  fc2W : List (List ℚ)
  fc2b : List ℚ
  fc2_shape : fc2W.length = 14 ∧ fc2b.length = 14

/-- The forward pass of `CheXpertCNN` (`keep` is the torch RNG driving the
dropout mask). -/
def CheXpertCNN.forward (m : CheXpertCNN) (keep : Nat → Bool) (x : Tensor) :
    Option (List ℚ) :=
  (m.features x).map (fun f =>
    linearLayer m.fc2W m.fc2b
      (dropoutLayer m.training keep (reluList (linearLayer m.fc1W m.fc1b f))))

/-- `model.eval()`: switch off training mode (dropout becomes a no-op). -/
def CheXpertCNN.evalMode (m : CheXpertCNN) : CheXpertCNN :=
  { m with training := false }

/-- `torch.sigmoid` on one logit, with the (positive-valued) exponential
abstracted as `ex`. -/
def sigmoidQ (ex : ℚ → ℚ) (x : ℚ) : ℚ := 1 / (1 + ex (-x))

/-- `CHEXPERT_CONDITIONS` (`backend/main.py` lines 48-63): the fixed ordered
14-condition set. -/
def CHEXPERT_CONDITIONS : List String :=
  ["No Finding",
   "Enlarged Cardiomediastinum",
   "Cardiomegaly",
   "Lung Opacity",
   "Lung Lesion",
   "Edema",
   "Consolidation",
   "Pneumonia",
   "Atelectasis",
   "Pneumothorax",
   "Pleural Effusion",
   "Pleural Other",
   "Fracture",
   "Support Devices"]

/-- `THRESHOLDS` (declared in the source and never applied). -/
def THRESHOLDS : List (String × ℚ) :=
  [("Cardiomegaly", 1/2),
   ("Edema", 1/2),
   ("Consolidation", 1/2),
   ("Atelectasis", 1/2),
   ("Pleural Effusion", 1/2)]

/-- `DEFAULT_THRESHOLD` (declared in the source and never applied). -/
def DEFAULT_THRESHOLD : ℚ := 1/2

/-- The module-global mutable state: the `model` variable. -/
structure GlobalState where
  model : Option CheXpertCNN

/-- The failures of `run_inference` (the three `RuntimeError` raise sites). -/
inductive InferenceError where
| modelNotInitialized
| invalidTensor
| inferenceFailed
deriving DecidableEq

/-- `run_inference` (`backend/main.py` lines 260-298): guard on the global
model and on a present, non-empty tensor; run the forward pass under
`torch.no_grad()` (numerically irrelevant); apply an independent sigmoid to
each logit; zip against the fixed condition order into the result mapping. -/
def run_inference (ex : ℚ → ℚ) (keep : Nat → Bool) (st : GlobalState)
    (image_tensor : Option Tensor) : Except InferenceError (List (String × ℚ)) :=
  match st.model with
  | none => Except.error InferenceError.modelNotInitialized
  | some m =>
    match image_tensor with
    | none => Except.error InferenceError.invalidTensor
    | some t =>
      if t.numel = 0 then Except.error InferenceError.invalidTensor
      else
        match m.forward keep t with
        | none => Except.error InferenceError.inferenceFailed
        | some outputs =>
          Except.ok (CHEXPERT_CONDITIONS.zip (outputs.map (sigmoidQ ex)))

/-- The failures of `load_model`: `torch.load` raising `FileNotFoundError`
maps to the first re-raise site, any other load failure to the second. -/
inductive LoadError where
| modelNotFound
| modelLoadFailed
deriving DecidableEq

/-- `load_model` (`backend/main.py` lines 131-205): return the cached global
model if one is bound; otherwise assign a freshly constructed classifier to
the global variable, read the artifact (`torchLoad` is the `torch.load`
result; the container-key extraction of lines 150-168 is pure and is folded
into it), normalize key wrappers, bind leniently (`bindSD` abstracts
`load_state_dict(..., strict=False)`, which mutates the global instance),
switch to eval mode and cache.  On a `torch.load` failure the error is
re-raised after the global has already been assigned the fresh instance. -/
def load_model {V : Type} (fresh : CheXpertCNN)
    (bindSD : CheXpertCNN → StateDict V → CheXpertCNN)
    (torchLoad : Except LoadError (StateDict V))
    (st : GlobalState) : Except LoadError CheXpertCNN × GlobalState :=
  match st.model with
  | some m => (Except.ok m, st)
  | none =>
    match torchLoad with
    | Except.error e => (Except.error e, { model := some fresh })
    | Except.ok checkpoint =>
      let state_dict := normalize_state_dict checkpoint
      let m2 := (bindSD fresh state_dict).evalMode
      (Except.ok m2, { model := some m2 })

/-- One full numeric pipeline run: `preprocess_image` followed by
`run_inference`, returning the condition scores when both succeed. -/
def classify (ex : ℚ → ℚ) (keep : Nat → Bool)
    (dec : List Nat → Option PILImage) (lum : List Nat → Nat)
    (R : PILImage → Nat → Nat → Nat → Nat → List Nat)
    (toDev : Tensor → Option Tensor) (st : GlobalState)
    (image_bytes : List Nat) : Option (List (String × ℚ)) :=
  match preprocess_image dec lum R toDev image_bytes with
  | Except.error _ => none
  | Except.ok t => (run_inference ex keep st (some t)).toOption

/-- The FastAPI `HTTPException`, with the literal status code and detail of
the corresponding raise site. -/
structure HTTPException where
  status_code : Nat
  detail : String
deriving DecidableEq

/-- A request to the external generation capability: the arguments of
`client.chat.completions.create` (model name, the system and user messages,
sampling temperature, output token budget). -/
structure GroqRequest where
  modelName : String
  system : String
  user : String
  temperature : ℚ
  maxTokens : Nat
deriving DecidableEq

/-- Pad a natural below 1000 to three digits. -/
def pad3 (n : Nat) : String :=
  if n < 10 then "00" ++ toString n
  else if n < 100 then "0" ++ toString n
  else toString n

/-- Round to the nearest integer, ties to even (the rounding of `:.3f`). -/
def roundHalfEven (q : ℚ) : ℤ :=
  let f := ⌊q⌋
  if q - f < 1/2 then f
  else if 1/2 < q - f then f + 1
  else if f % 2 = 0 then f else f + 1

/-- `f"{probability:.3f}"`: render a rational at fixed 3-decimal precision. -/
def fmt3 (q : ℚ) : String :=
  let n := roundHalfEven (q * 1000)
  let s := toString (n.natAbs / 1000) ++ "." ++ pad3 (n.natAbs % 1000)
  if n < 0 then "-" ++ s else s

/-- The `conditions_str` block of `interpret_with_llm`: one
`- condition: probability` line per entry, probabilities at fixed 3-decimal
precision. -/
def conditions_str (conditions : List (String × ℚ)) : String :=
  String.intercalate ("\n")
    (conditions.map (fun cp => "- " ++ cp.1 ++ ": " ++ fmt3 cp.2))

/-- The fixed system instruction of `interpret_with_llm`. -/
def interpret_system_prompt : String :=
  "You are a medical AI assistant that provides educational explanations of chest X-ray analysis results.\n\nCRITICAL RULES (you must follow all):\n1. You are NOT a doctor and do NOT provide medical diagnoses\n2. Explain what the probabilities mean in simple terms\n3. DO NOT claim any condition is definitely present or absent\n4. Always emphasize uncertainty and the need for professional evaluation\n5. Use calm, clear, non-alarmist language\n6. Structure your response to be easy to read\n7. Include a clear disclaimer at the end\n8. Reference only the conditions provided in the data - do NOT invent or hallucinate other conditions\n9. If asked for a diagnosis, firmly state you cannot diagnose and recommend consulting a healthcare professional\n10. Explain that these are probabilistic model outputs, not definitive findings\n\nTone: Professional, calm, educational, careful."

/-- The user instruction of `interpret_with_llm`: the rendered probability
lines plus the caller's question (or the fixed default question). -/
def interpret_user_prompt (conditions : List (String × ℚ)) (user_message : String) :
    String :=
  "The AI model has analyzed a chest X-ray and produced the following probability estimates for different conditions:\n\n"
  ++ conditions_str conditions
  ++ "\n\nUser question: "
  ++ (if user_message = "" then "Please explain these results." else user_message)
  ++ "\n\nProvide an educational interpretation of these results. Remember:\n- These are probabilities, not diagnoses\n- High probability does NOT guarantee the condition is present\n- Low probability does NOT guarantee the condition is absent\n- Professional medical evaluation is essential\n- Always include a disclaimer"

/-- The single generation request issued by `interpret_with_llm`: a function
of the condition scores and the user text alone. -/
def interpret_request (conditions : List (String × ℚ)) (user_message : String) :
    GroqRequest :=
  { modelName := "llama-3.3-70b-versatile",
    system := interpret_system_prompt,
    user := interpret_user_prompt conditions user_message,
    temperature := 3/10,
    maxTokens := 1000 }

/-- The fixed system instruction of `chat_without_image`. -/
def general_system_prompt : String :=
  "You are a helpful medical education assistant focusing on radiology and chest X-ray knowledge.\n\nCRITICAL RULES:\n1. Provide general medical education information only\n2. Do NOT provide specific medical advice or diagnoses\n3. Do NOT claim to have access to any imaging data\n4. Recommend consulting healthcare professionals for specific concerns\n5. Use clear, accurate medical terminology while remaining accessible\n6. Always include appropriate disclaimers\n7. Stay within your knowledge boundaries - if unsure, say so\n\nTone: Professional, educational, careful, helpful."

/-- The single generation request issued by `chat_without_image`. -/
def general_request (message : String) : GroqRequest :=
  { modelName := "llama-3.3-70b-versatile",
    system := general_system_prompt,
    user := message,
    temperature := 3/10,
    maxTokens := 800 }

/-- Python truthiness of the configured credential: `not GROQ_API_KEY` is
true when the environment variable is absent or empty. -/
def keyConfigured : Option String → Bool
| none => false
| some s => !(s = "")

/-- `response.choices[0].message.content or "Unable to generate response."`:
the returned content (`none` models a null content field), with the fixed
placeholder substituted for a null or empty content. -/
def contentOrFallback (c : Option String) : String :=
  match c with
  | none => "Unable to generate response."
  | some s => if s = "" then "Unable to generate response." else s

/-- `interpret_with_llm` (`backend/main.py` lines 301-380): fail fast when
the credential is not configured; otherwise issue exactly one generation
request built from the condition scores and the user text (`llm` abstracts
the Groq client; `Except.error ()` is any raised call failure), surfacing a
call failure as the fixed 500 response and never retrying.  The proxy
environment cleanup of the source is an environment side effect with no
bearing on the returned value and is not modelled. -/
def interpret_with_llm (key : Option String)
    (llm : GroqRequest → Except Unit (Option String))
    (conditions : List (String × ℚ)) (user_message : String) :
    Except HTTPException String :=
  if !(keyConfigured key) then
    Except.error { status_code := 500, detail := "LLM service not configured" }
  else
    match llm (interpret_request conditions user_message) with
    | Except.ok content => Except.ok (contentOrFallback content)
    | Except.error _ =>
      Except.error { status_code := 500,
                     detail := "Failed to generate interpretation. Please try again." }

/-- `chat_without_image` (`backend/main.py` lines 383-429): the no-findings
interpretation path, same structure as `interpret_with_llm` with its own
fixed system prompt and failure detail. -/
def chat_without_image (key : Option String)
    (llm : GroqRequest → Except Unit (Option String))
    (message : String) : Except HTTPException String :=
  if !(keyConfigured key) then
    Except.error { status_code := 500, detail := "LLM service not configured" }
  else
    match llm (general_request message) with
    | Except.ok content => Except.ok (contentOrFallback content)
    | Except.error _ =>
      Except.error { status_code := 500,
                     detail := "Failed to process chat request. Please try again." }

/-- An uploaded multipart file part: its declared content type (`none` when
the client declared none) and its bytes. -/
structure UploadFile where
  content_type : Option String
  bytes : List Nat

/-- `str.strip()`: drop leading and trailing whitespace. -/
def pyStrip (s : String) : String :=
  String.mk ((((s.data.dropWhile Char.isWhitespace).reverse).dropWhile
    Char.isWhitespace).reverse)

/-- `s.startswith(p)` on content-type strings. -/
def pyStartsWith (s p : String) : Bool := p.data.isPrefixOf s.data

/-- The structured success payload of the `/api/chat` endpoint. -/
structure ChatResponse where
  response : String
  has_image_analysis : Bool
  conditions : Option (List (String × ℚ))
deriving DecidableEq

/-- The `/api/chat` endpoint (`backend/main.py` lines 454-572).  Routing:
no image and blank text is rejected; no image with text goes straight to
`chat_without_image`; with an image, the declared content type must be
present and of image kind, the bytes must be non-empty, and the request runs
preprocessing, inference and the findings interpretation, re-raising
`HTTPException`s and wrapping pipeline errors with the literal details of the
source.  The `await image.read()` of the source yields the part's bytes.
Note on the zero-length branch: the source raises
`HTTPException(400, "Uploaded image is empty")` inside the read `try` block
whose handler is `except Exception` — `HTTPException` is an `Exception`
subclass, so that raise is swallowed and re-raised as
`HTTPException(400, "Failed to read image file")`; the detail the program
actually surfaces for an empty upload is the read-failure one. -/
def chat (key : Option String) (llm : GroqRequest → Except Unit (Option String))
    (ex : ℚ → ℚ) (keep : Nat → Bool)
    (dec : List Nat → Option PILImage) (lum : List Nat → Nat)
    (R : PILImage → Nat → Nat → Nat → Nat → List Nat)
    (toDev : Tensor → Option Tensor) (st : GlobalState)
    (message : String) (image : Option UploadFile) :
    Except HTTPException ChatResponse :=
  match image with
  | none =>
    if pyStrip message = "" then
      Except.error { status_code := 400,
                     detail := "Please provide a message or upload an image" }
    else
      match chat_without_image key llm (pyStrip message) with
      | Except.ok response_text =>
        Except.ok { response := response_text, has_image_analysis := false,
                    conditions := none }
      | Except.error e => Except.error e
  | some img =>
    match img.content_type with
    | none =>
      Except.error { status_code := 400, detail := "Unable to determine file type" }
    | some ct =>
      if ct = "" then
        Except.error { status_code := 400, detail := "Unable to determine file type" }
      else if !(pyStartsWith ct ("image/")) then
        Except.error { status_code := 400,
                       detail := "Invalid file type. Please upload an image." }
      else if img.bytes.isEmpty then
        Except.error { status_code := 400, detail := "Failed to read image file" }
      else
        match preprocess_image dec lum R toDev img.bytes with
        | Except.error pe =>
          Except.error { status_code := 400, detail := pe.message }
        | Except.ok image_tensor =>
          match run_inference ex keep st (some image_tensor) with
          | Except.error _ =>
            Except.error { status_code := 500, detail := "Model inference failed" }
          | Except.ok conditions =>
            match interpret_with_llm key llm conditions (pyStrip message) with
            | Except.ok response_text =>
              Except.ok { response := response_text, has_image_analysis := true,
                          conditions := some conditions }
            | Except.error e => Except.error e

/-- A concrete color image used to instantiate theorems. -/
def wImg : PILImage :=
  { mode := "RGB", width := 5, height := 7, px := fun _ _ => [3, 4, 5] }

/-- A concrete decoder that decodes anything to `wImg`. -/
def wDec : List Nat → Option PILImage := fun _ => some wImg

/-- A concrete luminance formula. -/
def wLum : List Nat → Nat := fun l => l.headD 0

/-- A concrete deterministic resampling filter. -/
def wR : PILImage → Nat → Nat → Nat → Nat → List Nat :=
  fun img _ _ x y => img.px x y

/-- A concrete bound classifier in eval mode. -/
def wModel : CheXpertCNN :=
  { training := false,
    features := fun _ => some [],
    fc1W := [], fc1b := [],
    fc2W := List.replicate 14 [], fc2b := List.replicate 14 0,
    fc2_shape := by simp }

/-- A concrete freshly constructed classifier (training mode, as
`nn.Module` construction leaves it). -/
def wFresh : CheXpertCNN := { wModel with training := true }

/-- A concrete positive exponential stand-in. -/
def wExp : ℚ → ℚ := fun _ => 1

/-- A concrete dropout keep mask. -/
def wKeep : Nat → Bool := fun _ => true

/-- The global state holding `wModel`. -/
def wSt : GlobalState := { model := some wModel }

/-- The tensor produced from `wImg` by the transform pipeline. -/
def wT : Tensor := apply_transforms wLum wR wImg

/-- The logits `wModel` produces (all zero: every head row is empty and
every bias entry is 0). -/
def wLogits : List ℚ :=
  linearLayer wModel.fc2W wModel.fc2b
    (dropoutLayer wModel.training wKeep (reluList (linearLayer wModel.fc1W wModel.fc1b [])))

/-- The condition scores `wModel` produces. -/
def wConds : List (String × ℚ) := CHEXPERT_CONDITIONS.zip (wLogits.map (sigmoidQ wExp))

/-- A generation capability that always fails. -/
def wLLMFail : GroqRequest → Except Unit (Option String) := fun _ => Except.error ()

/-- A generation capability that always answers with fixed text. -/
def wLLMOk : GroqRequest → Except Unit (Option String) :=
  fun _ => Except.ok (some "All good")

/-- A concrete state dict value assignment is irrelevant; keys below use
`Nat` values. -/
def wSD : StateDict Nat :=
  [(SDKey.str ("features.0.weight").data, 0), (SDKey.str ("classifier.1.bias").data, 1)]

/-- `wSD` with only its first key carrying the `module.` wrapper. -/
def wSDmixed : StateDict Nat :=
  [(SDKey.str ("module.features.0.weight").data, 0),
   (SDKey.str ("classifier.1.bias").data, 1)]

/-- A concrete lenient binder. -/
def wBind : CheXpertCNN → StateDict Nat → CheXpertCNN := fun m _ => m

/-- The model bound by the concrete successful load used in witnesses. -/
def c1M : CheXpertCNN := (wBind wFresh (normalize_state_dict wSD)).evalMode

/-- A concrete PNG upload. -/
def wUpload1 : UploadFile := { content_type := some ("image/png"), bytes := [1] }

/-- A concrete JPEG upload with different bytes. -/
def wUpload2 : UploadFile := { content_type := some ("image/jpeg"), bytes := [2, 3] }

/-- A concrete text-file upload. -/
def wUploadText : UploadFile := { content_type := some ("text/plain"), bytes := [1] }

/-- A concrete image upload with empty bytes. -/
def wUploadEmpty : UploadFile := { content_type := some ("image/png"), bytes := [] }

/-- Helper: a mapping none of whose string keys uniformly carry a recognized
wrapper token, or which has a non-string key, is left unchanged by the
normalization step. -/
theorem normalize_self {V : Type} (sd : StateDict V)
    (h : (∃ kv ∈ sd, keyIsStr kv.1 = false) ∨
      (∀ p ∈ state_dict_prefixes, ∃ kv ∈ sd, keyStarts p kv.1 = false)) :
    normalize_state_dict sd = sd := by
  unfold normalize_state_dict
  rcases h with ⟨kv, hmem, hfalse⟩ | hall
  · have hany : sd.any (fun kv => !(keyIsStr kv.1)) = true := by
      rw [List.any_eq_true]
      exact ⟨kv, hmem, by rw [hfalse]; rfl⟩
    by_cases hemp : sd.isEmpty <;> simp [hemp, hany]
  · have hfind : state_dict_prefixes.find?
        (fun p => sd.all (fun kv => keyStarts p kv.1)) = none := by
      rw [List.find?_eq_none]
      intro p hp
      rcases hall p hp with ⟨kv, hmem, hf⟩
      simp only [List.all_eq_true, not_forall]
      exact ⟨kv, hmem, by rw [hf]; exact Bool.false_ne_true⟩
    by_cases hemp : sd.isEmpty
    · simp [hemp]
    · by_cases hany : sd.any (fun kv => !(keyIsStr kv.1)) <;> simp [hemp, hany, hfind]

/-- Helper: a list is a `isPrefixOf` of itself followed by anything. -/
theorem isPrefixOf_self_append (p s : List Char) : p.isPrefixOf (p ++ s) = true := by
  induction p with
  | nil => simp
  | cons a as ih => simp [ih]

/-- Helper: `module.` is never a prefix of a `model.`-prefixed key. -/
theorem module_not_starts_model (s : List Char) :
    ("module.".data).isPrefixOf ("model.".data ++ s) = false := rfl

/-- Helper: prepending a token preserves string-ness of a key. -/
theorem keyIsStr_pfxKey (p : List Char) (k : SDKey) :
    keyIsStr (pfxKey p k) = keyIsStr k := by
  cases k <;> rfl

/-- Helper: a string key with `p` prepended starts with `p`. -/
theorem keyStarts_pfxKey (p : List Char) (k : SDKey) (h : keyIsStr k = true) :
    keyStarts p (pfxKey p k) = true := by
  cases k with
  | str s => simp [keyStarts, pfxKey, isPrefixOf_self_append]
  | other m => exact absurd h (by simp [keyIsStr])

/-- Helper: stripping `p.length` characters undoes prepending `p`. -/
theorem strip_pfxKey (p : List Char) (k : SDKey) :
    stripKey p.length (pfxKey p k) = k := by
  cases k <;> simp [stripKey, pfxKey, List.drop_left]

/-- Helper: stripping the prepended token from every key recovers the
original mapping. -/
theorem addPfx_strip {V : Type} (p : List Char) (W : StateDict V) :
    (addPfx p W).map (fun kv => (stripKey p.length kv.1, kv.2)) = W := by
  rw [addPfx, List.map_map]
  have hc : ((fun kv : SDKey × V => (stripKey p.length kv.1, kv.2)) ∘
      (fun kv : SDKey × V => (pfxKey p kv.1, kv.2))) = fun kv => kv := by
    funext kv
    simp [strip_pfxKey]
  rw [hc]
  exact List.map_id W

/-- Helper: a uniformly prefixed all-string mapping passes the all-keys
check for its token. -/
theorem addPfx_all_starts {V : Type} (p : List Char) (W : StateDict V)
    (hstr : ∀ kv ∈ W, keyIsStr kv.1 = true) :
    (addPfx p W).all (fun kv => keyStarts p kv.1) = true := by
  rw [List.all_eq_true]
  intro kv hkv
  rw [addPfx, List.mem_map] at hkv
  obtain ⟨kv0, hkv0, rfl⟩ := hkv
  exact keyStarts_pfxKey p kv0.1 (hstr kv0 hkv0)

/-- Helper: a uniformly prefixed all-string mapping has no non-string key. -/
theorem addPfx_no_nonstr {V : Type} (p : List Char) (W : StateDict V)
    (hstr : ∀ kv ∈ W, keyIsStr kv.1 = true) :
    (addPfx p W).any (fun kv => !(keyIsStr kv.1)) = false := by
  rw [Bool.eq_false_iff]
  intro hcontra
  rw [List.any_eq_true] at hcontra
  obtain ⟨kv, hkv, hbad⟩ := hcontra
  rw [addPfx, List.mem_map] at hkv
  obtain ⟨kv0, hkv0, rfl⟩ := hkv
  rw [keyIsStr_pfxKey, hstr kv0 hkv0] at hbad
  exact Bool.false_ne_true hbad

/-- C5: for every loaded weight mapping in which only some keys start with a
recognized prefix candidate (`module.` or `model.`), or in which any key is
not a string, no prefix stripping occurs and the mapping is bound to the
classifier exactly as found (the loader hands the unmodified mapping to the
lenient binder and caches the resulting instance in eval mode). -/
theorem c5_no_partial_strip {V : Type} (sd : StateDict V)
    (h : (∃ kv ∈ sd, keyIsStr kv.1 = false) ∨
      (∀ p ∈ state_dict_prefixes, ∃ kv ∈ sd, keyStarts p kv.1 = false)) :
    normalize_state_dict sd = sd ∧
    ∀ (fresh : CheXpertCNN) (bindSD : CheXpertCNN → StateDict V → CheXpertCNN),
      load_model fresh bindSD (Except.ok sd) { model := none } =
        (Except.ok ((bindSD fresh sd).evalMode),
         { model := some ((bindSD fresh sd).evalMode) }) := by
  have hn := normalize_self sd h
  exact ⟨hn, fun fresh bindSD => by simp [load_model, hn]⟩

/-- Witness for C5 at a concrete mapping whose first key alone carries the
`module.` wrapper. -/
theorem c5_no_partial_strip_witness :
    normalize_state_dict wSDmixed = wSDmixed ∧
    load_model wFresh wBind (Except.ok wSDmixed) { model := none } =
      (Except.ok ((wBind wFresh wSDmixed).evalMode),
       { model := some ((wBind wFresh wSDmixed).evalMode) }) := by
  have h := c5_no_partial_strip wSDmixed (Or.inr (by decide))
  exact ⟨h.1, h.2 wFresh wBind⟩

/-- C6: binding a weight mapping with all-string, unprefixed keys directly
produces the same bound parameters as binding the mapping obtained by
uniformly prepending a recognized prefix to every key: the stripping step
recovers the original mapping, so `load_model` produces identical results
from either form. -/
theorem c6_normalization_idempotent {V : Type} (W : StateDict V) (p : List Char)
    (hp : p ∈ state_dict_prefixes)
    (hstr : ∀ kv ∈ W, keyIsStr kv.1 = true)
    (hunpfx : ∀ kv ∈ W, ∀ q ∈ state_dict_prefixes, keyStarts q kv.1 = false) :
    normalize_state_dict (addPfx p W) = W ∧
    normalize_state_dict W = W ∧
    ∀ (fresh : CheXpertCNN) (bindSD : CheXpertCNN → StateDict V → CheXpertCNN),
      load_model fresh bindSD (Except.ok (addPfx p W)) { model := none } =
        load_model fresh bindSD (Except.ok W) { model := none } := by
  have hW : normalize_state_dict W = W := by
    cases W with
    | nil => rfl
    | cons kv0 tl =>
      exact normalize_self _ (Or.inr (fun q hq =>
        ⟨kv0, List.mem_cons_self kv0 tl, hunpfx kv0 (List.mem_cons_self kv0 tl) q hq⟩))
  have hA : normalize_state_dict (addPfx p W) = W := by
    cases W with
    | nil =>
      cases hp with
      | head => rfl
      | tail _ htl => cases htl with
        | head => rfl
        | tail _ h2 => cases h2
    | cons kv0 tl =>
      have hemp : (addPfx p (kv0 :: tl)).isEmpty = false := by simp [addPfx]
      have hns := addPfx_no_nonstr p (kv0 :: tl) hstr
      have hall := addPfx_all_starts p (kv0 :: tl) hstr
      rw [state_dict_prefixes] at hp
      rcases List.mem_pair.mp hp with rfl | rfl
      · have hfind : state_dict_prefixes.find?
            (fun q => (addPfx ("module.".data) (kv0 :: tl)).all
              (fun kv => keyStarts q kv.1)) = some ("module.".data) := by
          rw [state_dict_prefixes]
          exact List.find?_cons_of_pos _ hall
        rw [normalize_state_dict, hemp, hns, hfind]
        simp only [Bool.false_eq_true, if_false]
        exact addPfx_strip _ _
      · have hs0 : ∃ s, kv0.1 = SDKey.str s := by
          cases h0 : kv0.1 with
          | str s => exact ⟨s, rfl⟩
          | other m =>
            have := hstr kv0 (List.mem_cons_self kv0 tl)
            rw [h0] at this
            exact absurd this (by simp [keyIsStr])
        obtain ⟨s, hs⟩ := hs0
        have hnotmod : (addPfx ("model.".data) (kv0 :: tl)).all
            (fun kv => keyStarts ("module.".data) kv.1) = false := by
          rw [Bool.eq_false_iff]
          intro hcontra
          rw [List.all_eq_true] at hcontra
          have hmem : (pfxKey ("model.".data) kv0.1, kv0.2) ∈
              addPfx ("model.".data) (kv0 :: tl) := by
            rw [addPfx, List.mem_map]
            exact ⟨kv0, List.mem_cons_self kv0 tl, rfl⟩
          have := hcontra _ hmem
          rw [hs] at this
          rw [show pfxKey ("model.".data) (SDKey.str s) =
            SDKey.str ("model.".data ++ s) from rfl] at this
          rw [show keyStarts ("module.".data) (SDKey.str ("model.".data ++ s)) =
            ("module.".data).isPrefixOf ("model.".data ++ s) from rfl] at this
          rw [module_not_starts_model s] at this
          exact Bool.false_ne_true this
        have hfind : state_dict_prefixes.find?
            (fun q => (addPfx ("model.".data) (kv0 :: tl)).all
              (fun kv => keyStarts q kv.1)) = some ("model.".data) := by
          rw [state_dict_prefixes]
          rw [List.find?_cons_of_neg _ (by rw [hnotmod]; exact Bool.false_ne_true)]
          exact List.find?_cons_of_pos _ hall
        rw [normalize_state_dict, hemp, hns, hfind]
        simp only [Bool.false_eq_true, if_false]
        exact addPfx_strip _ _
  refine ⟨hA, hW, fun fresh bindSD => ?_⟩
  simp [load_model, hA, hW]

/-- Witness for C6 at a concrete unprefixed two-key mapping and the
`module.` wrapper. -/
theorem c6_normalization_idempotent_witness :
    normalize_state_dict (addPfx ("module.".data) wSD) = wSD ∧
    normalize_state_dict wSD = wSD ∧
    load_model wFresh wBind (Except.ok (addPfx ("module.".data) wSD)) { model := none } =
      load_model wFresh wBind (Except.ok wSD) { model := none } := by
  have h := c6_normalization_idempotent wSD ("module.".data)
    (by rw [state_dict_prefixes]; exact List.mem_cons_self _ _)
    (by decide) (by decide)
  exact ⟨h.1, h.2.1, h.2.2 wFresh wBind⟩

/-- Helper: in eval mode the forward pass does not depend on the dropout
keep mask. -/
theorem forward_keep_invariant (m : CheXpertCNN) (h : m.training = false)
    (keep1 keep2 : Nat → Bool) (x : Tensor) :
    m.forward keep1 x = m.forward keep2 x := by
  simp [CheXpertCNN.forward, dropoutLayer, h]

/-- Helper: the forward pass always produces exactly 14 logits (the
`Linear(512, 14)` head). -/
theorem forward_length (m : CheXpertCNN) (keep : Nat → Bool) (x : Tensor)
    (outputs : List ℚ) (h : m.forward keep x = some outputs) :
    outputs.length = 14 := by
  rw [CheXpertCNN.forward] at h
  cases hf : m.features x with
  | none => rw [hf] at h; exact absurd h (by simp)
  | some fv =>
    rw [hf] at h
    simp only [Option.map_some'] at h
    obtain rfl := Option.some.inj h
    simp [linearLayer, List.length_zip, m.fc2_shape.1, m.fc2_shape.2]

/-- Helper: each sigmoid value lies in [0, 1] for a positive exponential. -/
theorem sigmoidQ_bounds (ex : ℚ → ℚ) (hex : ∀ x, 0 < ex x) (x : ℚ) :
    0 ≤ sigmoidQ ex x ∧ sigmoidQ ex x ≤ 1 := by
  have h1 : (0 : ℚ) < 1 + ex (-x) := by have := hex (-x); linarith
  constructor
  · exact le_of_lt (div_pos one_pos h1)
  · rw [sigmoidQ, div_le_one h1]
    have := hex (-x)
    linarith

/-- C10: if `load_model` fails while reading the artifact, the module-global
model variable is left holding the freshly constructed classifier instead of
being reset to `None`; any subsequent `load_model` call returns that instance
without re-reading the artifact, and the `ModelNotInitialized` guard of
`run_inference` never fires for it. -/
theorem c10_load_not_atomic {V : Type} (fresh : CheXpertCNN)
    (bindSD : CheXpertCNN → StateDict V → CheXpertCNN) (e : LoadError)
    (st0 : GlobalState) (h0 : st0.model = none) :
    load_model fresh bindSD (Except.error e) st0 =
      (Except.error e, { model := some fresh }) ∧
    (∀ torchLoad2 : Except LoadError (StateDict V),
      load_model fresh bindSD torchLoad2 { model := some fresh } =
        (Except.ok fresh, { model := some fresh })) ∧
    (∀ (ex : ℚ → ℚ) (keep : Nat → Bool) (t : Option Tensor),
      run_inference ex keep { model := some fresh } t ≠
        Except.error InferenceError.modelNotInitialized) := by
  obtain ⟨mo⟩ := st0
  simp only at h0
  subst h0
  refine ⟨rfl, fun _ => rfl, fun ex keep t => ?_⟩
  cases t with
  | none => simp [run_inference]
  | some u =>
    simp only [run_inference]
    split
    · simp
    · cases hf : fresh.forward keep u <;> simp [hf]

/-- Witness for C10 at concrete instances. -/
theorem c10_load_not_atomic_witness :
    load_model wFresh wBind (Except.error LoadError.modelNotFound) { model := none } =
      (Except.error LoadError.modelNotFound, { model := some wFresh }) ∧
    load_model wFresh wBind (Except.ok wSD) { model := some wFresh } =
      (Except.ok wFresh, { model := some wFresh }) ∧
    run_inference wExp wKeep { model := some wFresh } (some wT) ≠
      Except.error InferenceError.modelNotInitialized := by
  have h := c10_load_not_atomic wFresh wBind LoadError.modelNotFound
    { model := none } rfl
  exact ⟨h.1, h.2.1 (Except.ok wSD), h.2.2 wExp wKeep (some wT)⟩

/-- Helper: characterization of a successful `run_inference` call. -/
theorem run_inference_ok_iff (ex : ℚ → ℚ) (keep : Nat → Bool)
    (st : GlobalState) (t : Option Tensor) (scores : List (String × ℚ)) :
    run_inference ex keep st t = Except.ok scores ↔
    ∃ (m : CheXpertCNN) (u : Tensor) (outputs : List ℚ),
      st.model = some m ∧ t = some u ∧ u.numel ≠ 0 ∧
      m.forward keep u = some outputs ∧
      CHEXPERT_CONDITIONS.zip (outputs.map (sigmoidQ ex)) = scores := by
  cases hm : st.model with
  | none => simp [run_inference, hm]
  | some m =>
    cases t with
    | none => simp [run_inference, hm]
    | some u =>
      by_cases hn : u.numel = 0
      · simp [run_inference, hm, hn]
      · cases hf : m.forward keep u with
        | none => simp [run_inference, hm, hn, hf]
        | some outputs => simp [run_inference, hm, hn, hf]

/-- Helper: a mask-invariance form of `run_inference` for an eval-mode
model. -/
theorem run_inference_keep_invariant (ex : ℚ → ℚ) (keep1 keep2 : Nat → Bool)
    (m : CheXpertCNN) (hm : m.training = false) (t : Option Tensor) :
    run_inference ex keep1 { model := some m } t =
      run_inference ex keep2 { model := some m } t := by
  cases t with
  | none => rfl
  | some u =>
    simp only [run_inference]
    rw [forward_keep_invariant m hm keep1 keep2]

/-- C1: for any fixed image bytes, repeated `preprocess_image` +
`run_inference` calls against the model bound by a successful fresh
`load_model` yield identical condition scores: the bound model is in eval
mode, so the dropout keep mask (the only stochastic input of the pipeline)
cannot influence the result, and no other step is randomized. -/
theorem c1_determinism {V : Type} (fresh : CheXpertCNN)
    (bindSD : CheXpertCNN → StateDict V → CheXpertCNN)
    (torchLoad : Except LoadError (StateDict V)) (st0 : GlobalState)
    (m : CheXpertCNN) (st1 : GlobalState)
    (h0 : st0.model = none)
    (hload : load_model fresh bindSD torchLoad st0 = (Except.ok m, st1)) :
    m.training = false ∧
    ∀ (ex : ℚ → ℚ) (dec : List Nat → Option PILImage) (lum : List Nat → Nat)
      (R : PILImage → Nat → Nat → Nat → Nat → List Nat)
      (toDev : Tensor → Option Tensor) (keep1 keep2 : Nat → Bool)
      (image_bytes : List Nat),
      classify ex keep1 dec lum R toDev st1 image_bytes =
        classify ex keep2 dec lum R toDev st1 image_bytes := by
  obtain ⟨mo⟩ := st0
  simp only at h0
  subst h0
  cases torchLoad with
  | error e => exact absurd (congrArg Prod.fst hload) (by simp [load_model])
  | ok ck =>
    have hld : load_model fresh bindSD (Except.ok ck) { model := none } =
        (Except.ok ((bindSD fresh (normalize_state_dict ck)).evalMode),
         { model := some ((bindSD fresh (normalize_state_dict ck)).evalMode) }) := rfl
    rw [hld] at hload
    obtain ⟨h1, h2⟩ := Prod.mk.inj hload
    obtain rfl := Except.ok.inj h1
    subst h2
    refine ⟨rfl, fun ex dec lum R toDev keep1 keep2 image_bytes => ?_⟩
    rw [classify, classify]
    cases hp : preprocess_image dec lum R toDev image_bytes with
    | error pe => rfl
    | ok t =>
      show (run_inference ex keep1 _ (some t)).toOption =
        (run_inference ex keep2 _ (some t)).toOption
      rw [run_inference_keep_invariant ex keep1 keep2 _ rfl (some t)]

/-- Witness for C1 at a concrete successful load and two distinct keep
masks. -/
theorem c1_determinism_witness :
    c1M.training = false ∧
    classify wExp wKeep wDec wLum wR some { model := some c1M } [1] =
      classify wExp (fun _ => false) wDec wLum wR some { model := some c1M } [1] := by
  have h := c1_determinism wFresh wBind (Except.ok wSD) { model := none }
    c1M { model := some c1M } rfl rfl
  exact ⟨h.1, h.2 wExp wDec wLum wR some wKeep (fun _ => false) [1]⟩

/-- C3: every successful `run_inference` result maps exactly the 14 fixed
condition names, in their fixed order, to an independent sigmoid of the
corresponding logit of the forward pass, each value lying in [0, 1]; the
mapping is the plain pointwise sigmoid of the logits — no normalization step
is applied to it. -/
theorem c3_score_completeness (ex : ℚ → ℚ) (keep : Nat → Bool)
    (st : GlobalState) (t : Option Tensor) (scores : List (String × ℚ))
    (hex : ∀ x, 0 < ex x)
    (hrun : run_inference ex keep st t = Except.ok scores) :
    scores.map Prod.fst = CHEXPERT_CONDITIONS ∧
    scores.length = 14 ∧
    (∃ (m : CheXpertCNN) (u : Tensor) (outputs : List ℚ),
      st.model = some m ∧ t = some u ∧ m.forward keep u = some outputs ∧
      scores = CHEXPERT_CONDITIONS.zip (outputs.map (sigmoidQ ex))) ∧
    ∀ cp ∈ scores, 0 ≤ cp.2 ∧ cp.2 ≤ 1 := by
  obtain ⟨m, u, outputs, hm, ht, hn, hf, hs⟩ :=
    (run_inference_ok_iff ex keep st t scores).mp hrun
  have hlen : outputs.length = 14 := forward_length m keep u outputs hf
  have hclen : CHEXPERT_CONDITIONS.length = 14 := rfl
  have hmlen : (outputs.map (sigmoidQ ex)).length = 14 := by
    rw [List.length_map, hlen]
  subst hs
  refine ⟨?_, ?_, ⟨m, u, outputs, hm, ht, hf, rfl⟩, ?_⟩
  · exact List.map_fst_zip _ _ (by rw [hclen, hmlen])
  · rw [List.length_zip, hclen, hmlen]
    exact min_self 14
  · intro cp hcp
    have h2 := (List.of_mem_zip hcp).2
    rw [List.mem_map] at h2
    obtain ⟨x, _, hx⟩ := h2
    rw [← hx]
    exact sigmoidQ_bounds ex hex x

/-- Witness for C3 at the concrete bound model (all logits 0). -/
theorem c3_score_completeness_witness :
    wConds.map Prod.fst = CHEXPERT_CONDITIONS ∧
    wConds.length = 14 ∧
    (∀ cp ∈ wConds, 0 ≤ cp.2 ∧ cp.2 ≤ 1) := by
  have h := c3_score_completeness wExp wKeep wSt (some wT) wConds
    (fun _ => one_pos) rfl
  exact ⟨h.1, h.2.1, h.2.2.2⟩

/-- Helper: the transform pipeline always produces the canonical
`(1, 1, 224, 224)` shape. -/
theorem apply_transforms_shape (lum : List Nat → Nat)
    (R : PILImage → Nat → Nat → Nat → Nat → List Nat) (img : PILImage) :
    (apply_transforms lum R img).shape = [1, 1, 224, 224] := rfl

/-- Helper: characterization of a successful `preprocess_image` call. -/
theorem preprocess_ok_iff (dec : List Nat → Option PILImage)
    (lum : List Nat → Nat) (R : PILImage → Nat → Nat → Nat → Nat → List Nat)
    (toDev : Tensor → Option Tensor) (image_bytes : List Nat) (t : Tensor) :
    preprocess_image dec lum R toDev image_bytes = Except.ok t ↔
    (image_bytes ≠ [] ∧ ∃ img, dec image_bytes = some img ∧
      toDev (apply_transforms lum R img) = some t) := by
  by_cases hb : image_bytes = []
  · subst hb
    simp [preprocess_image]
  · have hb2 : image_bytes.isEmpty = false := List.isEmpty_eq_false.mpr hb
    cases hdec : dec image_bytes with
    | none => simp [preprocess_image, hb2, hdec, hb]
    | some img =>
      cases hdv : toDev (apply_transforms lum R img) with
      | none => simp [preprocess_image, hb2, hdec, hdv, hb]
      | some v => simp [preprocess_image, hb2, hdec, hdv, hb, eq_comm]

/-- C7: for every input byte string that decodes successfully,
`preprocess_image` returns a tensor of exactly one channel, height 224,
width 224, with a leading batch dimension of size 1, regardless of the
decoded image's native size, mode or pixel content (the device move of the
source preserves shapes). -/
theorem c7_shape_invariant (dec : List Nat → Option PILImage)
    (lum : List Nat → Nat) (R : PILImage → Nat → Nat → Nat → Nat → List Nat)
    (toDev : Tensor → Option Tensor) (image_bytes : List Nat)
    (img : PILImage) (t : Tensor)
    (hdev : ∀ u v, toDev u = some v → v.shape = u.shape)
    (hdec : dec image_bytes = some img)
    (hok : preprocess_image dec lum R toDev image_bytes = Except.ok t) :
    t.shape = [1, 1, 224, 224] := by
  obtain ⟨-, img2, hdec2, hdv⟩ := (preprocess_ok_iff dec lum R toDev image_bytes t).mp hok
  obtain rfl := Option.some.inj (hdec ▸ hdec2)
  rw [hdev _ _ hdv, apply_transforms_shape]

/-- Witness for C7 at a concrete 5×7 RGB image. -/
theorem c7_shape_invariant_witness : wT.shape = [1, 1, 224, 224] :=
  c7_shape_invariant wDec wLum wR some [1] wImg wT
    (fun u v h => by rw [Option.some.inj h]) rfl rfl

/-- C8: `preprocess_image` fails with the empty-image error on empty bytes,
with the invalid-format error on any decode failure, and with the generic
preprocessing error on a transform-stage failure; it returns a tensor if and
only if the bytes are non-empty, the decode succeeded and every transform
step succeeded — no fallback image or default tensor is ever substituted. -/
theorem c8_preprocess_errors (dec : List Nat → Option PILImage)
    (lum : List Nat → Nat) (R : PILImage → Nat → Nat → Nat → Nat → List Nat)
    (toDev : Tensor → Option Tensor) (image_bytes : List Nat) :
    (image_bytes = [] →
      preprocess_image dec lum R toDev image_bytes =
        Except.error PreprocessError.emptyImage) ∧
    (image_bytes ≠ [] → dec image_bytes = none →
      preprocess_image dec lum R toDev image_bytes =
        Except.error PreprocessError.invalidImageFormat) ∧
    (∀ img, image_bytes ≠ [] → dec image_bytes = some img →
      toDev (apply_transforms lum R img) = none →
      preprocess_image dec lum R toDev image_bytes =
        Except.error PreprocessError.preprocessingFailed) ∧
    (∀ t, preprocess_image dec lum R toDev image_bytes = Except.ok t ↔
      (image_bytes ≠ [] ∧ ∃ img, dec image_bytes = some img ∧
        toDev (apply_transforms lum R img) = some t)) := by
  refine ⟨?_, ?_, ?_, fun t => preprocess_ok_iff dec lum R toDev image_bytes t⟩
  · intro hb
    subst hb
    rfl
  · intro hb hdec
    rw [preprocess_image, List.isEmpty_eq_false.mpr hb]
    simp [hdec]
  · intro img hb hdec hdev
    rw [preprocess_image, List.isEmpty_eq_false.mpr hb]
    simp [hdec, hdev]

/-- Witness for C8: the empty-byte rejection and the success
characterization at a concrete one-byte input. -/
theorem c8_preprocess_errors_witness :
    preprocess_image wDec wLum wR some [] = Except.error PreprocessError.emptyImage ∧
    (preprocess_image wDec wLum wR some [1] = Except.ok wT ↔
      ([1] ≠ ([] : List Nat) ∧ ∃ img, wDec [1] = some img ∧
        some (apply_transforms wLum wR img) = some wT)) := by
  have h := c8_preprocess_errors wDec wLum wR some []
  have h2 := c8_preprocess_errors wDec wLum wR some [1]
  exact ⟨h.1 rfl, h2.2.2.2 wT⟩

/-- Helper: a successful inference result carries exactly the 14 fixed
condition keys in their fixed order. -/
theorem run_inference_keys (ex : ℚ → ℚ) (keep : Nat → Bool) (st : GlobalState)
    (t : Option Tensor) (scores : List (String × ℚ))
    (hrun : run_inference ex keep st t = Except.ok scores) :
    scores.map Prod.fst = CHEXPERT_CONDITIONS := by
  obtain ⟨m, u, outputs, hm, ht, hn, hf, hs⟩ :=
    (run_inference_ok_iff ex keep st t scores).mp hrun
  subst hs
  refine List.map_fst_zip _ _ ?_
  rw [List.length_map, forward_length m keep u outputs hf]
  exact le_refl 14

/-- Helper: the image branch of the `/api/chat` endpoint reduces to the
findings interpretation of the pipeline scores once the upload passes
validation and the numeric pipeline succeeds. -/
theorem chat_image_path (key : Option String)
    (llm : GroqRequest → Except Unit (Option String)) (ex : ℚ → ℚ)
    (keep : Nat → Bool) (dec : List Nat → Option PILImage) (lum : List Nat → Nat)
    (R : PILImage → Nat → Nat → Nat → Nat → List Nat)
    (toDev : Tensor → Option Tensor) (st : GlobalState) (message : String)
    (img : UploadFile) (ct : String) (conds : List (String × ℚ))
    (hct : img.content_type = some ct) (hct2 : ct ≠ "")
    (hct3 : pyStartsWith ct ("image/") = true)
    (hcls : classify ex keep dec lum R toDev st img.bytes = some conds) :
    chat key llm ex keep dec lum R toDev st message (some img) =
      (match interpret_with_llm key llm conds (pyStrip message) with
       | Except.ok response_text =>
         Except.ok { response := response_text, has_image_analysis := true,
                     conditions := some conds }
       | Except.error e => Except.error e) := by
  rw [classify] at hcls
  cases hp : preprocess_image dec lum R toDev img.bytes with
  | error pe => rw [hp] at hcls; exact absurd hcls (by simp)
  | ok t =>
    simp only [hp] at hcls
    cases hr : run_inference ex keep st (some t) with
    | error e => rw [hr] at hcls; exact absurd hcls (by simp [Except.toOption])
    | ok s =>
      rw [hr] at hcls
      obtain rfl : s = conds := by simpa [Except.toOption] using hcls
      have hbne : img.bytes ≠ [] :=
        ((preprocess_ok_iff dec lum R toDev img.bytes t).mp hp).1
      have hbe : img.bytes.isEmpty = false := List.isEmpty_eq_false.mpr hbne
      rw [chat, hct]
      simp only [hct3, Bool.not_true, Bool.false_eq_true, if_false, if_neg hct2,
        hbe, hp, hr]

/-- Counterexample for C2 as frozen: a zero-length upload with a valid image
content type is rejected with the read-failure detail, not the empty-upload
detail — the `Uploaded image is empty` exception of the source is swallowed
by the enclosing `except Exception` read handler and replaced. -/
theorem c2_empty_upload_counterexample :
    chat (some ("k")) wLLMOk wExp wKeep wDec wLum wR some wSt "hi" (some wUploadEmpty) =
      Except.error { status_code := 400, detail := "Failed to read image file" } ∧
    ({ status_code := 400, detail := "Failed to read image file" } : HTTPException) ≠
      { status_code := 400, detail := "Uploaded image is empty" } :=
  ⟨rfl, by decide⟩

/-- C2 (amended): routing of the `/api/chat` endpoint.  With no image and
non-blank text the request goes straight to the no-findings interpretation
and a success payload has `has_image_analysis = false` and
`conditions = null`; with neither image nor non-blank text it is rejected
with the missing-input error; an image whose declared content type is not an
image kind is rejected with the invalid-file-type error; an image with
zero-length bytes is rejected with a 400 carrying the read-failure detail
`Failed to read image file` — not the empty-upload detail, whose raise the
enclosing read handler swallows; a valid image that passes the pipeline
yields `has_image_analysis = true` with the 14 condition keys populated. -/
theorem c2_chat_routing (key : Option String)
    (llm : GroqRequest → Except Unit (Option String)) (ex : ℚ → ℚ)
    (keep : Nat → Bool) (dec : List Nat → Option PILImage) (lum : List Nat → Nat)
    (R : PILImage → Nat → Nat → Nat → Nat → List Nat)
    (toDev : Tensor → Option Tensor) (st : GlobalState) (message : String) :
    (pyStrip message ≠ "" →
      chat key llm ex keep dec lum R toDev st message none =
        Except.map
          (fun t => { response := t, has_image_analysis := false,
                      conditions := none : ChatResponse })
          (chat_without_image key llm (pyStrip message))) ∧
    (pyStrip message = "" →
      chat key llm ex keep dec lum R toDev st message none =
        Except.error { status_code := 400,
                       detail := "Please provide a message or upload an image" }) ∧
    (∀ (img : UploadFile) (ct : String), img.content_type = some ct → ct ≠ "" →
      pyStartsWith ct ("image/") = false →
      chat key llm ex keep dec lum R toDev st message (some img) =
        Except.error { status_code := 400,
                       detail := "Invalid file type. Please upload an image." }) ∧
    (∀ (img : UploadFile) (ct : String), img.content_type = some ct → ct ≠ "" →
      pyStartsWith ct ("image/") = true → img.bytes = [] →
      chat key llm ex keep dec lum R toDev st message (some img) =
        Except.error { status_code := 400, detail := "Failed to read image file" }) ∧
    (∀ (img : UploadFile) (ct : String) (conds : List (String × ℚ)) (txt : String),
      img.content_type = some ct → ct ≠ "" → pyStartsWith ct ("image/") = true →
      classify ex keep dec lum R toDev st img.bytes = some conds →
      interpret_with_llm key llm conds (pyStrip message) = Except.ok txt →
      chat key llm ex keep dec lum R toDev st message (some img) =
        Except.ok { response := txt, has_image_analysis := true,
                    conditions := some conds } ∧
      conds.map Prod.fst = CHEXPERT_CONDITIONS) := by
  refine ⟨?_, ?_, ?_, ?_, ?_⟩
  · intro hmsg
    rw [chat, if_neg hmsg]
    cases hc : chat_without_image key llm (pyStrip message) <;> simp [hc, Except.map]
  · intro hmsg
    rw [chat, if_pos hmsg]
  · intro img ct hct hct2 hct3
    rw [chat, hct]
    simp only [hct3, Bool.not_false, if_neg hct2, if_true]
  · intro img ct hct hct2 hct3 hbytes
    have hbe : img.bytes.isEmpty = true := by rw [hbytes]; rfl
    rw [chat, hct]
    simp only [hct3, Bool.not_true, Bool.false_eq_true, if_false, if_neg hct2,
      hbe, if_true]
  · intro img ct conds txt hct hct2 hct3 hcls hint
    constructor
    · rw [chat_image_path key llm ex keep dec lum R toDev st message img ct conds
        hct hct2 hct3 hcls, hint]
    · rw [classify] at hcls
      cases hp : preprocess_image dec lum R toDev img.bytes with
      | error pe => rw [hp] at hcls; exact absurd hcls (by simp)
      | ok t =>
        simp only [hp] at hcls
        cases hr : run_inference ex keep st (some t) with
        | error e => rw [hr] at hcls; exact absurd hcls (by simp [Except.toOption])
        | ok s =>
          rw [hr] at hcls
          obtain rfl : s = conds := by simpa [Except.toOption] using hcls
          exact run_inference_keys ex keep st (some t) _ hr

/-- Witness for C2 at concrete requests for each routing case. -/
theorem c2_chat_routing_witness :
    chat (some ("k")) wLLMOk wExp wKeep wDec wLum wR some wSt "hi" none =
      Except.map
        (fun t => { response := t, has_image_analysis := false,
                    conditions := none : ChatResponse })
        (chat_without_image (some ("k")) wLLMOk (pyStrip "hi")) ∧
    chat (some ("k")) wLLMOk wExp wKeep wDec wLum wR some wSt "" none =
      Except.error { status_code := 400,
                     detail := "Please provide a message or upload an image" } ∧
    chat (some ("k")) wLLMOk wExp wKeep wDec wLum wR some wSt "hi" (some wUploadText) =
      Except.error { status_code := 400,
                     detail := "Invalid file type. Please upload an image." } ∧
    chat (some ("k")) wLLMOk wExp wKeep wDec wLum wR some wSt "hi" (some wUploadEmpty) =
      Except.error { status_code := 400, detail := "Failed to read image file" } ∧
    chat (some ("k")) wLLMOk wExp wKeep wDec wLum wR some wSt "hi" (some wUpload1) =
      Except.ok { response := "All good", has_image_analysis := true,
                  conditions := some wConds } ∧
    wConds.map Prod.fst = CHEXPERT_CONDITIONS := by
  have h := c2_chat_routing (some ("k")) wLLMOk wExp wKeep wDec wLum wR some wSt "hi"
  have h0 := c2_chat_routing (some ("k")) wLLMOk wExp wKeep wDec wLum wR some wSt ""
  have h5 := h.2.2.2.2 wUpload1 ("image/png") wConds "All good" rfl (by decide)
    (by decide) rfl rfl
  exact ⟨h.1 (by decide), h0.2.1 rfl,
    h.2.2.1 wUploadText ("text/plain") rfl (by decide) (by decide),
    h.2.2.2.1 wUploadEmpty ("image/png") rfl (by decide) (by decide) rfl,
    h5.1, h5.2⟩

/-- C4: guard isolation.  First, the behaviour of `interpret_with_llm`
depends on the generation capability only through its value at the single
request built from the condition scores and the user text — the prompts
passed to it are a function of those two values alone.  Second, two chat
requests whose attached images produce identical condition scores produce
identical responses, whatever the images' bytes: nothing about the image
beyond the scores (in particular no raw bytes or pixel data) reaches the
generation capability or the response. -/
theorem c4_guard_isolation :
    (∀ (key : Option String) (conds : List (String × ℚ)) (msg : String)
       (llm1 llm2 : GroqRequest → Except Unit (Option String)),
      llm1 (interpret_request conds msg) = llm2 (interpret_request conds msg) →
      interpret_with_llm key llm1 conds msg = interpret_with_llm key llm2 conds msg) ∧
    (∀ (key : Option String) (llm : GroqRequest → Except Unit (Option String))
       (ex : ℚ → ℚ) (keep : Nat → Bool) (dec : List Nat → Option PILImage)
       (lum : List Nat → Nat) (R : PILImage → Nat → Nat → Nat → Nat → List Nat)
       (toDev : Tensor → Option Tensor) (st : GlobalState) (msg : String)
       (img1 img2 : UploadFile) (ct1 ct2 : String) (conds : List (String × ℚ)),
      img1.content_type = some ct1 → ct1 ≠ "" → pyStartsWith ct1 ("image/") = true →
      img2.content_type = some ct2 → ct2 ≠ "" → pyStartsWith ct2 ("image/") = true →
      classify ex keep dec lum R toDev st img1.bytes = some conds →
      classify ex keep dec lum R toDev st img2.bytes = some conds →
      chat key llm ex keep dec lum R toDev st msg (some img1) =
        chat key llm ex keep dec lum R toDev st msg (some img2)) := by
  constructor
  · intro key conds msg llm1 llm2 h
    rw [interpret_with_llm, interpret_with_llm, h]
  · intro key llm ex keep dec lum R toDev st msg img1 img2 ct1 ct2 conds
      h1 h2 h3 h4 h5 h6 hc1 hc2
    rw [chat_image_path key llm ex keep dec lum R toDev st msg img1 ct1 conds
      h1 h2 h3 hc1,
      chat_image_path key llm ex keep dec lum R toDev st msg img2 ct2 conds
      h4 h5 h6 hc2]

/-- Witness for C4: two uploads with different bytes and content types but
identical pipeline scores yield identical responses. -/
theorem c4_guard_isolation_witness :
    interpret_with_llm (some ("k")) wLLMOk [] "" =
      interpret_with_llm (some ("k")) wLLMOk [] "" ∧
    chat (some ("k")) wLLMOk wExp wKeep wDec wLum wR some wSt "q" (some wUpload1) =
      chat (some ("k")) wLLMOk wExp wKeep wDec wLum wR some wSt "q" (some wUpload2) := by
  have h := c4_guard_isolation
  exact ⟨h.1 (some ("k")) [] "" wLLMOk wLLMOk rfl,
    h.2 (some ("k")) wLLMOk wExp wKeep wDec wLum wR some wSt "q" wUpload1 wUpload2
      ("image/png") ("image/jpeg") wConds rfl (by decide) (by decide) rfl
      (by decide) (by decide) rfl rfl⟩

/-- Counterexample for C9 as frozen: a successful generation call whose
content field is null makes `interpret_with_llm` return the hardcoded
placeholder text, which the generation capability (here constantly
returning no content) never produced. -/
theorem c9_fallback_counterexample :
    interpret_with_llm (some ("k")) (fun _ => Except.ok none) [] "" =
      Except.ok ("Unable to generate response.") ∧
    ((fun _ => Except.ok none : GroqRequest → Except Unit (Option String))
        (interpret_request [] "")) = Except.ok (none : Option String) :=
  ⟨rfl, rfl⟩

/-- C9 (amended): each interpretation call fails with the
service-unavailable error when the generation credential is absent (or
empty), surfaces any generation-call failure as the fixed
interpretation-failed error without retrying, and returns the capability's
text whenever the call succeeds with non-empty content; when the call
succeeds with null or empty content the fixed placeholder
`Unable to generate response.` is returned in its place. -/
theorem c9_interpretation_errors :
    (∀ (llm : GroqRequest → Except Unit (Option String))
       (conds : List (String × ℚ)) (msg : String),
      interpret_with_llm none llm conds msg =
        Except.error { status_code := 500, detail := "LLM service not configured" }) ∧
    (∀ (llm : GroqRequest → Except Unit (Option String))
       (conds : List (String × ℚ)) (msg : String),
      interpret_with_llm (some ("")) llm conds msg =
        Except.error { status_code := 500, detail := "LLM service not configured" }) ∧
    (∀ (k : String) (llm : GroqRequest → Except Unit (Option String))
       (conds : List (String × ℚ)) (msg : String), k ≠ "" →
      llm (interpret_request conds msg) = Except.error () →
      interpret_with_llm (some k) llm conds msg =
        Except.error { status_code := 500,
                       detail := "Failed to generate interpretation. Please try again." }) ∧
    (∀ (k : String) (llm : GroqRequest → Except Unit (Option String))
       (conds : List (String × ℚ)) (msg : String) (s : String),
      k ≠ "" → s ≠ "" → llm (interpret_request conds msg) = Except.ok (some s) →
      interpret_with_llm (some k) llm conds msg = Except.ok s) ∧
    (∀ (k : String) (llm : GroqRequest → Except Unit (Option String))
       (conds : List (String × ℚ)) (msg : String) (c : Option String),
      k ≠ "" → llm (interpret_request conds msg) = Except.ok c →
      (c = none ∨ c = some ("")) →
      interpret_with_llm (some k) llm conds msg =
        Except.ok ("Unable to generate response.")) ∧
    (∀ (llm : GroqRequest → Except Unit (Option String)) (msg : String),
      chat_without_image none llm msg =
        Except.error { status_code := 500, detail := "LLM service not configured" }) ∧
    (∀ (k : String) (llm : GroqRequest → Except Unit (Option String))
       (msg : String), k ≠ "" → llm (general_request msg) = Except.error () →
      chat_without_image (some k) llm msg =
        Except.error { status_code := 500,
                       detail := "Failed to process chat request. Please try again." }) := by
  refine ⟨fun llm conds msg => rfl, fun llm conds msg => rfl, ?_, ?_, ?_,
    fun llm msg => rfl, ?_⟩
  · intro k llm conds msg hk hllm
    have hkc : keyConfigured (some k) = true := by simp [keyConfigured, hk]
    simp only [interpret_with_llm, hkc, Bool.not_true, Bool.false_eq_true,
      if_false, hllm]
  · intro k llm conds msg s hk hs hllm
    have hkc : keyConfigured (some k) = true := by simp [keyConfigured, hk]
    simp only [interpret_with_llm, hkc, Bool.not_true, Bool.false_eq_true,
      if_false, hllm, contentOrFallback]
    rw [if_neg hs]
  · intro k llm conds msg c hk hllm hc
    have hkc : keyConfigured (some k) = true := by simp [keyConfigured, hk]
    simp only [interpret_with_llm, hkc, Bool.not_true, Bool.false_eq_true,
      if_false, hllm]
    rcases hc with rfl | rfl
    · rfl
    · rfl
  · intro k llm msg hk hllm
    have hkc : keyConfigured (some k) = true := by simp [keyConfigured, hk]
    simp only [chat_without_image, hkc, Bool.not_true, Bool.false_eq_true,
      if_false, hllm]

/-- Witness for C9 at concrete capabilities. -/
theorem c9_interpretation_errors_witness :
    interpret_with_llm none wLLMOk [] "" =
      Except.error { status_code := 500, detail := "LLM service not configured" } ∧
    interpret_with_llm (some ("k")) wLLMFail [] "" =
      Except.error { status_code := 500,
                     detail := "Failed to generate interpretation. Please try again." } ∧
    chat_without_image (some ("k")) wLLMFail "m" =
      Except.error { status_code := 500,
                     detail := "Failed to process chat request. Please try again." } := by
  have h := c9_interpretation_errors
  exact ⟨h.1 wLLMOk [] "", h.2.2.1 ("k") wLLMFail [] "" (by decide) rfl,
    h.2.2.2.2.2.2 ("k") wLLMFail "m" (by decide) rfl⟩

end ChestXray
